import Mathlib

/-!
# Verification of the resilience orchestration core

A shallow embedding, in Lean 4, of the resilience layer of the
company-details extraction service: the in-memory result cache of
`src/services/extractCompanyDetails.js`, the LinkedIn retry wrapper of
`src/services/linkedinScraper.js`, the `LinkedInProxyManager`, the
`LinkedInAntiBlock` detector, and the bounded execution pool.

Modelling conventions:
* JavaScript millisecond timestamps (`Date.now()`) become explicit `Nat`
  parameters threaded through each operation.
* A JavaScript `Map` (insertion-ordered, unique keys) becomes a
  `List (key × value)` where `set` of a present key updates in place
  (keeping its position, as `Map.set` does) and `set` of a fresh key
  appends; `keys().next().value` is the head key.
* Mutating methods become state-passing functions returning the new state.
* `setTimeout` callbacks become explicit pending events carried in the
  state and delivered by a separate event-delivery function, mirroring the
  Node.js event loop, which runs a due callback as a separate turn and
  never inside a synchronous method call.
* Fallible operations return `Except`; the browser-driven callbacks
  (network, DOM) are opaque, so their outcomes are passed in as values.
-/

/-! ## Error model (`src/utils/errorUtils.js`) -/

/-- The body produced by `createError(type, message)`:
`{ success: false, errorType, errorMessage }`.  `errorType` is a plain
string in the source (the route even passes `'ValidationError'`, which is
not in the `ErrorTypes` enum), so it is modelled as `String`. -/
structure ErrObj where
  success : Bool
  errorType : String
  errorMessage : String
deriving Repr, DecidableEq

/-- `createError` from `src/utils/errorUtils.js`. -/
def createError (t msg : String) : ErrObj :=
  { success := false, errorType := t, errorMessage := msg }

/-! ## Result cache (`src/services/extractCompanyDetails.js`) -/

/-- `CACHE_DURATION = 10 * 60 * 1000` (10 minutes). -/
def CACHE_DURATION : Nat := 10 * 60 * 1000

/-- `MAX_CACHE_ENTRIES = 100`. -/
def MAX_CACHE_ENTRIES : Nat := 100

/-- The result object built by `extractCompanyDetails`:
`{ success: true, site, linkedin }`.  The site payload and the LinkedIn
payload are opaque to the caching layer and are modelled as strings, with
`linkedin: null` modelled as `none`. -/
structure ExtractResult where
  success : Bool
  site : String
  linkedin : Option String
deriving Repr, DecidableEq

/-- One cache slot: `{ data: result, timestamp: Date.now() }`. -/
structure CacheEntry where
  data : ExtractResult
  timestamp : Nat
deriving Repr, DecidableEq

/-- The `extractionCache` JavaScript `Map`, as an insertion-ordered
association list. -/
abbrev CacheMap := List (String × CacheEntry)

/-- `map.has(k)` (membership of a key). -/
def mapHasKey (m : CacheMap) (k : String) : Bool :=
  m.any (fun p => p.1 == k)

/-- `map.set(k, v)`: update in place when the key is present (a JS `Map`
keeps the original insertion position), append otherwise. -/
def mapSet (m : CacheMap) (k : String) (v : CacheEntry) : CacheMap :=
  if mapHasKey m k then m.map (fun p => if p.1 == k then (k, v) else p)
  else m ++ [(k, v)]

/-- `map.get(k)`. -/
def mapGet (m : CacheMap) (k : String) : Option CacheEntry :=
  (m.find? (fun p => p.1 == k)).map (fun p => p.2)

/-- `map.delete(map.keys().next().value)`: the first key in insertion
order is the head, so with unique keys this drops the head entry. -/
def deleteOldest (m : CacheMap) : CacheMap :=
  match m with
  | [] => []
  | _ :: t => t

/-- The write path of `extractCompanyDetails` (source lines 129-133):
`extractionCache.set(cacheKey, { data: result, timestamp: Date.now() });`
then, when `size > MAX_CACHE_ENTRIES`, delete the oldest key. -/
def cacheWrite (m : CacheMap) (k : String) (v : CacheEntry) : CacheMap :=
  let m1 := mapSet m k v
  if m1.length > MAX_CACHE_ENTRIES then deleteOldest m1 else m1

/-- The read path of `extractCompanyDetails` (source lines 81-85):
`cached && (Date.now() - cached.timestamp) < CACHE_DURATION` gates the
hit; an entry past its duration is treated as absent (and is not removed
by the read). -/
def cacheRead (m : CacheMap) (k : String) (now : Nat) : Option ExtractResult :=
  match mapGet m k with
  | some e => if now - e.timestamp < CACHE_DURATION then some e.data else none
  | none => none

/-! ### Cache lemmas -/

lemma mapGet_append_self (l : CacheMap) (k : String) (e : CacheEntry)
    (h : mapHasKey l k = false) : mapGet (l ++ [(k, e)]) k = some e := by
  induction l with
  | nil => simp [mapGet, List.find?]
  | cons p t ih =>
      simp only [mapHasKey, List.any_cons, Bool.or_eq_false_iff] at h
      simp only [List.cons_append, mapGet, List.find?, h.1]
      exact ih h.2

lemma mapGet_setInPlace (m : CacheMap) (k : String) (v : CacheEntry)
    (h : mapHasKey m k = true) :
    mapGet (m.map (fun p => if p.1 == k then (k, v) else p)) k = some v := by
  induction m with
  | nil => simp [mapHasKey] at h
  | cons p t ih =>
      by_cases hpk : (p.1 == k) = true
      · simp [mapGet, List.find?, hpk]
      · simp only [Bool.not_eq_true] at hpk
        simp only [mapHasKey, List.any_cons, hpk, Bool.false_or] at h
        simpa [mapGet, List.find?, hpk] using ih h

lemma length_mapSet_of_has (m : CacheMap) (k : String) (v : CacheEntry)
    (h : mapHasKey m k = true) : (mapSet m k v).length = m.length := by
  simp [mapSet, h]

/-- After a `cacheWrite` into a cache holding at most the configured
maximum, the written key maps to the written entry (the capacity eviction
never removes the entry just written). -/
lemma cacheWrite_get (m : CacheMap) (k : String) (v : CacheEntry)
    (hm : m.length ≤ MAX_CACHE_ENTRIES) :
    mapGet (cacheWrite m k v) k = some v := by
  by_cases hmem : mapHasKey m k = true
  · have hlen : (mapSet m k v).length = m.length := length_mapSet_of_has m k v hmem
    have hno : ¬ (mapSet m k v).length > MAX_CACHE_ENTRIES := by omega
    simp only [cacheWrite, if_neg hno]
    simpa [mapSet, hmem] using mapGet_setInPlace m k v hmem
  · have hmem' : mapHasKey m k = false := by
      simpa [Bool.not_eq_true] using hmem
    simp only [cacheWrite, mapSet, hmem', Bool.false_eq_true, if_false]
    by_cases hcap : (m ++ [(k, v)]).length > MAX_CACHE_ENTRIES
    · simp only [if_pos hcap]
      cases m with
      | nil => simp [MAX_CACHE_ENTRIES, List.length] at hcap
      | cons p t =>
          simp only [List.cons_append, deleteOldest]
          apply mapGet_append_self
          simp only [mapHasKey, List.any_cons, Bool.or_eq_false_iff] at hmem'
          exact hmem'.2
    · simp only [if_neg hcap]
      exact mapGet_append_self m k v hmem'

/-- `cacheWrite` keeps the cache within the configured maximum entry
count. -/
lemma cacheWrite_length_le (m : CacheMap) (k : String) (v : CacheEntry)
    (hm : m.length ≤ MAX_CACHE_ENTRIES) :
    (cacheWrite m k v).length ≤ MAX_CACHE_ENTRIES := by
  by_cases hmem : mapHasKey m k = true
  · have hlen : (mapSet m k v).length = m.length := length_mapSet_of_has m k v hmem
    have hno : ¬ (mapSet m k v).length > MAX_CACHE_ENTRIES := by omega
    simp only [cacheWrite, if_neg hno]
    omega
  · have hmem' : mapHasKey m k = false := by
      simpa [Bool.not_eq_true] using hmem
    simp only [cacheWrite, mapSet, hmem', Bool.false_eq_true, if_false]
    by_cases hcap : (m ++ [(k, v)]).length > MAX_CACHE_ENTRIES
    · simp only [if_pos hcap]
      cases m with
      | nil => simp [MAX_CACHE_ENTRIES] at hcap
      | cons p t =>
          simp only [List.cons_append, deleteOldest, List.length_append,
            List.length_cons, List.length_nil] at hcap ⊢
          simp only [List.length_cons] at hm
          omega
    · simp only [if_neg hcap]
      have hl : (m ++ [(k, v)]).length = m.length + 1 := by simp
      omega

/-- Writing a fresh key into a cache exactly at capacity drops exactly
the head (oldest) entry and appends the new one. -/
lemma cacheWrite_at_capacity (m : CacheMap) (k : String) (v : CacheEntry)
    (hm : m.length = MAX_CACHE_ENTRIES) (hmem : mapHasKey m k = false) :
    cacheWrite m k v = m.tail ++ [(k, v)] := by
  simp only [cacheWrite, mapSet, hmem, Bool.false_eq_true, if_false]
  have hcap : (m ++ [(k, v)]).length > MAX_CACHE_ENTRIES := by
    simp only [List.length_append, List.length_cons, List.length_nil]
    omega
  simp only [if_pos hcap]
  cases m with
  | nil => simp [MAX_CACHE_ENTRIES] at hm
  | cons p t => simp [deleteOldest]

/-! ## String helpers for the block classifier

`String.toLowerCase()` and `String.includes()` modelled over the
character lists of Lean strings. -/

/-- `s.toLowerCase()`: character-wise lowercasing. -/
def jsToLower (s : String) : String := ⟨s.data.map Char.toLower⟩

/-- Contiguous-sublist test on character lists, the meaning of the
JavaScript `text.includes(pat)`. -/
def hasSubList (pat : List Char) : List Char → Bool
  | [] => pat.isEmpty
  | c :: t => pat.isPrefixOf (c :: t) || hasSubList pat t

/-- `s.includes(pat)`. -/
def jsIncludes (s pat : String) : Bool := hasSubList pat.data s.data

/-! ## Anti-block detector (`LinkedInAntiBlock`, from the blocking
mitigation module shipped alongside `setup-proxy-step-by-step.md`) -/

/-- The mutable fields of the `LinkedInAntiBlock` class. -/
structure LinkedInAntiBlock where
  blockingDetected : Bool
  lastBlockingTime : Option Nat
  blockingCount : Nat
  cooldownPeriod : Nat
  maxCooldownPeriod : Nat
deriving Repr, DecidableEq

namespace LinkedInAntiBlock

/-- The constructor's initial state: no blocking seen, 5-minute initial
cooldown, 1-hour maximum cooldown. -/
def init : LinkedInAntiBlock :=
  { blockingDetected := false
    lastBlockingTime := none
    blockingCount := 0
    cooldownPeriod := 5 * 60 * 1000
    maxCooldownPeriod := 60 * 60 * 1000 }

/-- `onBlockingDetected()`: record the block, bump the counter, and set
`cooldownPeriod = min(cooldownPeriod * 2 ** (blockingCount - 1),
maxCooldownPeriod)` — note the multiplicand is the CURRENT (already
escalated) `cooldownPeriod`, and `blockingCount` has already been
incremented when the exponent is read. -/
def onBlockingDetected (st : LinkedInAntiBlock) (now : Nat) : LinkedInAntiBlock :=
  let count := st.blockingCount + 1
  { st with
    blockingDetected := true
    lastBlockingTime := some now
    blockingCount := count
    cooldownPeriod := min (st.cooldownPeriod * 2 ^ (count - 1)) st.maxCooldownPeriod }

/-- JavaScript truthiness of the nullable `lastBlockingTime` (both
`null` and `0` are falsy). -/
def jsTruthyOptNat : Option Nat → Bool
  | none => false
  | some t => t != 0

/-- `isInCooldown()`: lazily computed from `now - lastBlockingTime <
cooldownPeriod`; when the window has elapsed it clears
`blockingDetected` (and nothing else) as a side effect. -/
def isInCooldown (st : LinkedInAntiBlock) (now : Nat) : Bool × LinkedInAntiBlock :=
  if st.blockingDetected && jsTruthyOptNat st.lastBlockingTime then
    let t := st.lastBlockingTime.getD 0
    if now - t < st.cooldownPeriod then (true, st)
    else (false, { st with blockingDetected := false })
  else (false, st)

/-- `reset()`: clear everything and restore the 5-minute initial
cooldown. -/
def reset (st : LinkedInAntiBlock) : LinkedInAntiBlock :=
  { st with
    blockingDetected := false
    lastBlockingTime := none
    blockingCount := 0
    cooldownPeriod := 5 * 60 * 1000 }

end LinkedInAntiBlock

/-- The `blockingSignals` phrase list of the constructor. -/
def blockingSignals : List String :=
  ["challenge", "security check", "unusual activity", "temporarily blocked",
   "rate limit", "please verify", "captcha", "suspicious activity"]

/-- The object literal returned by `detectBlocking` (absent fields
modelled as `false`/`none`). -/
structure BlockCheck where
  blocked : Bool
  suspicious : Bool
  reason : Option String
  severity : Option String
deriving Repr, DecidableEq

namespace LinkedInAntiBlock

/-- `detectBlocking(pageContent, url, statusCode)`: lowercases the
content, then fires on (a) any blocking phrase in the content, (b) a
challenge/login/authwall path in the final URL, (c) status 429/403/401;
on a hit it runs `onBlockingDetected()`.  Minimal content (< 1000
lowercased characters) alone only yields a `suspicious` verdict. -/
def detectBlocking (st : LinkedInAntiBlock) (now : Nat)
    (pageContent url : String) (statusCode : Nat) :
    BlockCheck × LinkedInAntiBlock :=
  let content := jsToLower pageContent
  let hasBlockingSignal := blockingSignals.any (fun signal => jsIncludes content signal)
  let isChallengeRedirect :=
    jsIncludes url "/challenge/" || jsIncludes url "/login/" || jsIncludes url "/authwall/"
  let hasBlockingStatus := statusCode == 429 || statusCode == 403 || statusCode == 401
  let hasMinimalContent := content.length < 1000
  if hasBlockingSignal || isChallengeRedirect || hasBlockingStatus then
    ({ blocked := true
       suspicious := false
       reason := some (if hasBlockingSignal then "Content blocking signal"
                       else if isChallengeRedirect then "Challenge redirect"
                       else if hasBlockingStatus then "HTTP " ++ toString statusCode
                       else "Unknown")
       severity := some (if hasBlockingSignal || isChallengeRedirect then "high" else "medium") },
     st.onBlockingDetected now)
  else if hasMinimalContent then
    ({ blocked := false, suspicious := true
       reason := some "Minimal content detected", severity := some "low" }, st)
  else
    ({ blocked := false, suspicious := false, reason := none, severity := none }, st)

end LinkedInAntiBlock

/-- Spec-side characterization of a `blocked` verdict, written from the
claim's words: at least one of the three signal classes fires — a
configured phrase occurs in the (lowercased) content, the final URL
contains a challenge/login/auth-wall path, or the status code is
429, 403 or 401.  Compared against `detectBlocking` below. -/
def specBlockedSignals (pageContent url : String) (statusCode : Nat) : Prop :=
  (∃ sig ∈ blockingSignals, jsIncludes (jsToLower pageContent) sig = true) ∨
  (jsIncludes url "/challenge/" = true ∨ jsIncludes url "/login/" = true ∨
   jsIncludes url "/authwall/" = true) ∨
  (statusCode = 429 ∨ statusCode = 403 ∨ statusCode = 401)

instance (c u : String) (sc : Nat) : Decidable (specBlockedSignals c u sc) := by
  unfold specBlockedSignals
  exact inferInstance

/-! ## Proxy manager (`LinkedInProxyManager`, second module of
`src/routes/extract.js`) -/

/-- One proxy record as built by `addProxy` (credentials and `addedAt`
elided; they never influence selection). -/
structure Proxy where
  id : String
  host : String
  port : Nat
  successCount : Nat
  failureCount : Nat
  avgResponseTime : ℚ
  lastUsed : Option Nat
deriving Repr, DecidableEq

/-- The mutable fields of `LinkedInProxyManager`.  `failedProxies` is the
JavaScript `Set` of failed proxy ids; `pendingRecoveries` models the
30-minute `setTimeout` callbacks registered by `markProxyFailed` (one
`(proxyId, fireAt)` per registration), which the Node event loop runs as
separate turns — see `deliverRecoveries`. -/
structure LinkedInProxyManager where
  proxies : List Proxy
  currentProxyIndex : Nat
  failedProxies : List String
  lastProxyRotation : Nat
  rotationInterval : Nat
  pendingRecoveries : List (String × Nat)
deriving Repr, DecidableEq

/-- `PROXY_QUARANTINE_WINDOW`: the 30-minute recovery delay hardcoded in
`markProxyFailed`. -/
def PROXY_QUARANTINE_WINDOW : Nat := 30 * 60 * 1000

namespace LinkedInProxyManager

/-- `rotateProxy()`: advance the cursor (no-op with at most one proxy)
and stamp the rotation time. -/
def rotateProxy (st : LinkedInProxyManager) (now : Nat) : LinkedInProxyManager :=
  if st.proxies.length ≤ 1 then st
  else { st with
           currentProxyIndex := (st.currentProxyIndex + 1) % st.proxies.length
           lastProxyRotation := now }

/-- The `while (attempts < this.proxies.length)` scan of
`getNextProxy()`: starting at `idx`, return the index of the first proxy
whose id is not in the failed set, advancing `(idx + 1) % length` past
failed ones; `fuel` is `proxies.length - attempts`.  Returns the found
index (if any) together with the final cursor value. -/
def scanProxies (proxies : List Proxy) (failed : List String) :
    Nat → Nat → Option Nat × Nat
  | 0, idx => (none, idx)
  | fuel + 1, idx =>
      match proxies.get? idx with
      | none => (none, idx)
      | some p =>
          if failed.contains p.id then
            scanProxies proxies failed fuel ((idx + 1) % proxies.length)
          else (some idx, idx)

/-- `getNextProxy()`: `null` on an empty list; otherwise rotate when the
rotation interval has elapsed, then scan for a non-failed proxy from the
cursor, stamping `lastUsed` on the proxy returned.  When a full cycle
finds none, return `null` (run without proxy).  Note that the quarantine
check is pure `Set` membership: `now` is never compared against any
recovery deadline here. -/
def getNextProxy (st : LinkedInProxyManager) (now : Nat) :
    Option Proxy × LinkedInProxyManager :=
  if st.proxies.length = 0 then (none, st)
  else
    let st1 := if now - st.lastProxyRotation > st.rotationInterval
               then st.rotateProxy now else st
    match scanProxies st1.proxies st1.failedProxies st1.proxies.length st1.currentProxyIndex with
    | (some i, _) =>
        match st1.proxies.get? i with
        | some p =>
            let p' := { p with lastUsed := some now }
            (some p', { st1 with proxies := st1.proxies.set i p', currentProxyIndex := i })
        | none => (none, st1)
    | (none, idxEnd) => (none, { st1 with currentProxyIndex := idxEnd })

/-- `this.proxies.find(p => p.id === proxyId)` followed by a mutation of
the found record: update the first proxy with the given id. -/
def updateFirstProxy (ps : List Proxy) (proxyId : String) (f : Proxy → Proxy) : List Proxy :=
  match ps with
  | [] => []
  | p :: t => if p.id == proxyId then f p :: t else p :: updateFirstProxy t proxyId f

/-- `markProxyFailed(proxyId)`: add the id to the failed set, bump the
proxy's `failureCount`, and register a `setTimeout` that will re-enable
the proxy 30 minutes later. -/
def markProxyFailed (st : LinkedInProxyManager) (proxyId : String) (now : Nat) :
    LinkedInProxyManager :=
  { st with
    failedProxies := if st.failedProxies.contains proxyId then st.failedProxies
                     else st.failedProxies ++ [proxyId]
    proxies := updateFirstProxy st.proxies proxyId
      (fun p => { p with failureCount := p.failureCount + 1 })
    pendingRecoveries := st.pendingRecoveries ++ [(proxyId, now + PROXY_QUARANTINE_WINDOW)] }

/-- `markProxySuccess(proxyId, responseTime)`: when the id is known, bump
`successCount`, average the latency, and drop the id from the failed
set. -/
def markProxySuccess (st : LinkedInProxyManager) (proxyId : String) (responseTime : ℚ) :
    LinkedInProxyManager :=
  if st.proxies.any (fun p => p.id == proxyId) then
    { st with
      proxies := updateFirstProxy st.proxies proxyId
        (fun p => { p with
                      successCount := p.successCount + 1
                      avgResponseTime := (p.avgResponseTime + responseTime) / 2 })
      failedProxies := st.failedProxies.erase proxyId }
  else st

/-- The Node event loop delivering every due recovery callback
(`this.failedProxies.delete(proxyId)` scheduled by `markProxyFailed`):
ids whose deadline has passed leave the failed set.  This is a separate
event, NOT part of `getNextProxy`. -/
def deliverRecoveries (st : LinkedInProxyManager) (now : Nat) : LinkedInProxyManager :=
  let due := st.pendingRecoveries.filter (fun r => r.2 ≤ now)
  { st with
    failedProxies := st.failedProxies.filter (fun i => !(due.any (fun r => r.1 == i)))
    pendingRecoveries := st.pendingRecoveries.filter (fun r => !(r.2 ≤ now : Bool)) }

end LinkedInProxyManager

/-- When every proxy id is in the failed set, the scan finds nothing,
whatever the fuel and start index. -/
lemma scanProxies_all_failed (proxies : List Proxy) (failed : List String)
    (hall : ∀ p ∈ proxies, failed.contains p.id = true) :
    ∀ fuel idx, (LinkedInProxyManager.scanProxies proxies failed fuel idx).1 = none := by
  intro fuel
  induction fuel with
  | zero => intro idx; simp [LinkedInProxyManager.scanProxies]
  | succ n ih =>
      intro idx
      simp only [LinkedInProxyManager.scanProxies]
      cases hget : proxies.get? idx with
      | none => simp
      | some p =>
          have hmem : p ∈ proxies := List.get?_mem hget
          have h2 : p.id ∈ failed := by simpa using hall p hmem
          simp [h2, ih]

/-! ## LinkedIn retry wrapper (`retryLinkedInExtraction`, from the
scraper module) -/

/-- The payload extracted from a LinkedIn company page:
`{ name, description, linkedin }`. -/
structure LinkedInData where
  name : String
  description : String
  linkedin : String
deriving Repr, DecidableEq

/-- The raw failure of one browser visit, before
`extractCompanyDataFromLinkedIn` wraps it: whether `error.code` was
`'ECONNRESET'`, plus the message. -/
structure RawErr where
  isConnReset : Bool
  message : String
deriving Repr, DecidableEq

/-- `extractCompanyDataFromLinkedIn(url)` (single-visit variant): the
browser outcome is opaque and passed in; a raw failure is wrapped as
`ECONNRESET` (bot detection / network instability) or `NetworkError`. -/
def extractCompanyDataFromLinkedIn (outcome : Except RawErr LinkedInData) :
    Except ErrObj LinkedInData :=
  match outcome with
  | .ok d => .ok d
  | .error e =>
      if e.isConnReset then
        .error (createError "ECONNRESET"
          "Connection was reset by LinkedIn — possible bot detection or network instability.")
      else .error (createError "NetworkError" e.message)

deriving instance DecidableEq for Except

/-- The `while (attempt < retries)` loop of `retryLinkedInExtraction`.
`op k` is the outcome of the (k+1)-th invocation of the wrapped
operation (already wrapped into an `ErrObj` failure); `remaining` is
`retries - attempt`, so the loop guard `attempt < retries` is
`remaining ≠ 0` and the `if (attempt >= retries) break` after a failure
is `remaining - 1 = 0`.  Returns the surfaced result together with the
number of invocations performed. -/
def retryLoop (op : Nat → Except ErrObj LinkedInData) :
    Nat → Nat → Option ErrObj → Except ErrObj LinkedInData × Nat
  | 0, calls, lastError =>
      ((match lastError with
        | some e => Except.error e
        | none => Except.error (createError "NetworkError" "LinkedIn scraping failed")), calls)
  | remaining + 1, calls, _lastError =>
      match op calls with
      | .ok d => (.ok d, calls + 1)
      | .error e =>
          if remaining = 0 then (.error e, calls + 1)
          else retryLoop op remaining (calls + 1) (some e)

/-- `retryLinkedInExtraction(url, retries)`: run the wrapped operation
up to `retries` times, retrying after EVERY failure (the `catch` does not
inspect the error kind), and finally `throw lastError`. -/
def retryLinkedInExtraction (op : Nat → Except ErrObj LinkedInData) (retries : Nat) :
    Except ErrObj LinkedInData × Nat :=
  retryLoop op retries 0 none

/-- An operation that fails on every invocation is invoked once per
remaining attempt, and the failure surfaced is the one produced by the
final invocation, unchanged. -/
lemma retryLoop_always_fails (e : Nat → ErrObj) :
    ∀ r calls le, r ≠ 0 →
      retryLoop (fun k => Except.error (e k)) r calls le
        = (Except.error (e (calls + r - 1)), calls + r) := by
  intro r
  induction r with
  | zero => intro calls le h; exact absurd rfl h
  | succ n ih =>
      intro calls le _
      by_cases hn : n = 0
      · subst hn
        simp [retryLoop]
      · simp only [retryLoop, if_neg hn]
        rw [ih (calls + 1) (some (e calls)) hn]
        have h1 : calls + 1 + n - 1 = calls + (n + 1) - 1 := by omega
        have h2 : calls + 1 + n = calls + (n + 1) := by omega
        rw [h1, h2]

/-! ## Orchestrating service (`extractCompanyDetails`) -/

/-- A site-extraction failure before `extractCompanyDetails` maps it:
whether `err.name === 'TimeoutError'`, plus the message. -/
structure SiteErr where
  isTimeoutName : Bool
  message : String
deriving Repr, DecidableEq

/-- What `extractCompanyDetails` hands back to the route: either the
result object (with the `_cached: true` marker of a hit modelled as the
`Bool`), or a thrown `createError` body. -/
inductive ExtractOutcome where
  | ok (res : ExtractResult) (cachedFlag : Bool)
  | fail (e : ErrObj)
deriving Repr, DecidableEq

/-- `extractCompanyDetails(url, linkedin)` with the browser-driven
callbacks passed in as outcomes:

* `normalized` — the value of `isValidUrl(url)` (`none` for falsy);
* `resolvable` — the value of `await isDomainResolvable(normalized)`;
* `siteOutcome` — the outcome of the `cluster.execute` site extraction;
* `liOutcome` — the outcome of
  `withTimeout(retryLinkedInExtraction(linkedin), 120000)`, already
  unwrapped to the `res.data` payload (a timeout after 120s arrives here
  as an `Except.error`), consulted only when `linkedin` is present.

Returns the outcome, the cache after the call, and how many times the
LinkedIn extraction pipeline was entered (0 or 1). -/
def extractCompanyDetails (m : CacheMap) (now : Nat)
    (normalized : Option String) (resolvable : Bool)
    (siteOutcome : Except SiteErr String)
    (linkedin : Option String)
    (liOutcome : Except ErrObj String) :
    ExtractOutcome × CacheMap × Nat :=
  match normalized with
  | none => (.fail (createError "NetworkError" "Invalid URL"), m, 0)
  | some n =>
      if !resolvable then (.fail (createError "NetworkError" "Domain cannot be resolved"), m, 0)
      else
        let cacheKey := "extract:" ++ n
        match cacheRead m cacheKey now with
        | some data => (.ok data true, m, 0)
        | none =>
            match siteOutcome with
            | .error err =>
                if err.isTimeoutName then
                  (.fail (createError "TimeoutError" "Website timed out"), m, 0)
                else (.fail (createError "NavigationError" err.message), m, 0)
            | .ok siteData =>
                let liStep : Option String × Nat :=
                  match linkedin with
                  | none => (none, 0)
                  | some _ =>
                      match liOutcome with
                      | .ok d => (some d, 1)
                      | .error _ => (none, 1)
                let result : ExtractResult :=
                  { success := true, site := siteData, linkedin := liStep.1 }
                (.ok result false,
                 cacheWrite m cacheKey { data := result, timestamp := now },
                 liStep.2)

/-! ## Execution pool

`getCluster` in `src/services/puppeteerSetup.js` only configures the
pool: `Cluster.launch({ concurrency: CONCURRENCY_PAGE, maxConcurrency:
parseInt(process.env.POOL_SIZE || '2', 10) })`.  The queueing discipline
itself lives in the external `puppeteer-cluster` package, outside this
repository, so the pool below is modelled from the spec. -/

/-- `POOL_SIZE` default: `parseInt(process.env.POOL_SIZE || '2', 10)`. -/
def POOL_SIZE_DEFAULT : Nat := 2

/-- A submitted task: an id and a duration in scheduler ticks. -/
structure PoolTask where
  tid : Nat
  duration : Nat
deriving Repr, DecidableEq

/-- Modelled from the spec: the `ExecutionPool` state — a bounded set of
concurrently active contexts (`running`, each with remaining ticks), a
FIFO `waiting` queue for excess tasks, and the ids of completed tasks in
completion order. -/
structure ExecutionPool where
  capacity : Nat
  waiting : List PoolTask
  running : List (Nat × Nat)
  finished : List Nat
deriving Repr, DecidableEq

/-- Modelled from the spec: assign contexts to waiting tasks in FIFO
order while free capacity remains. -/
def poolFill (st : ExecutionPool) : ExecutionPool :=
  let free := st.capacity - st.running.length
  { st with
    running := st.running ++ (st.waiting.take free).map (fun t => (t.tid, t.duration))
    waiting := st.waiting.drop free }

/-- Modelled from the spec: `submit(task)` — append to the FIFO queue,
then assign immediately if a context is free. -/
def poolSubmit (st : ExecutionPool) (t : PoolTask) : ExecutionPool :=
  poolFill { st with waiting := st.waiting ++ [t] }

/-- Modelled from the spec: one scheduler tick — every active task
progresses by one tick, tasks reaching zero release their context and
complete, and freed contexts are refilled from the FIFO queue. -/
def poolTick (st : ExecutionPool) : ExecutionPool :=
  let dec := st.running.map (fun r => (r.1, r.2 - 1))
  poolFill
    { st with
      running := dec.filter (fun r => !(r.2 == 0))
      finished := st.finished ++ (dec.filter (fun r => r.2 == 0)).map (fun r => r.1) }

/-- Filling never pushes `running` past `capacity`. -/
lemma poolFill_length_le (st : ExecutionPool) (h : st.running.length ≤ st.capacity) :
    (poolFill st).running.length ≤ st.capacity := by
  simp only [poolFill, List.length_append, List.length_map, List.length_take]
  omega

/-- One tick never pushes `running` past `capacity` (and the capacity
itself never changes). -/
lemma poolTick_length_le (st : ExecutionPool) (h : st.running.length ≤ st.capacity) :
    (poolTick st).running.length ≤ st.capacity ∧ (poolTick st).capacity = st.capacity := by
  constructor
  · have hf : ((st.running.map (fun r => (r.1, r.2 - 1))).filter
        (fun r => !(r.2 == 0))).length ≤ st.capacity := by
      calc ((st.running.map (fun r => (r.1, r.2 - 1))).filter (fun r => !(r.2 == 0))).length
          ≤ (st.running.map (fun r => (r.1, r.2 - 1))).length := List.length_filter_le _ _
        _ = st.running.length := List.length_map _ _
        _ ≤ st.capacity := h
    simpa [poolTick] using poolFill_length_le _ hf
  · simp [poolTick, poolFill]

/-! ## Demo states -/

/-- The anti-block state posited by the cooldown claim: the initial
state with `initialCooldown = 5000` ms (the code's fixed backoff base of
2 and its 1-hour maximum are kept). -/
def antiBlockDemo : LinkedInAntiBlock :=
  { LinkedInAntiBlock.init with cooldownPeriod := 5000 }

/-- A demo payload for cache witnesses. -/
def demoResult : ExtractResult :=
  { success := true, site := "Example Corp", linkedin := none }

/-! ## C1 — cooldown escalation across consecutive blocks -/

/-- C1, counterexample: with `initialCooldown = 5000` ms and the code's
backoff base 2, the third consecutive block sets `cooldownPeriod` to
40000 ms, not the claimed `min(initialCooldown * 2 ^ (3 - 1),
maxCooldown) = 20000` ms: `onBlockingDetected` multiplies the CURRENT
(already escalated) cooldown by `2 ^ (blockingCount - 1)` instead of the
initial cooldown. -/
theorem c1_cooldown_sequence_counterexample :
    ((((antiBlockDemo.onBlockingDetected 0).onBlockingDetected 1).onBlockingDetected
        2).cooldownPeriod = 40000)
    ∧ min (5000 * 2 ^ (3 - 1)) antiBlockDemo.maxCooldownPeriod = 20000
    ∧ (40000 : Nat) ≠ 20000 := by decide

/-- C1, amended: after the k-th consecutive block the new cooldown is
`min(previousCooldown * 2 ^ (k - 1), maxCooldown)` — the previous,
already escalated cooldown is the multiplicand — so with
`initialCooldown = 5000` ms three consecutive blocks yield 5000, 10000,
40000 (each clamped at `maxCooldown`). -/
theorem c1_cooldown_recurrence (st : LinkedInAntiBlock) (now : Nat) :
    ((st.onBlockingDetected now).blockingCount = st.blockingCount + 1
     ∧ (st.onBlockingDetected now).cooldownPeriod
         = min (st.cooldownPeriod * 2 ^ st.blockingCount) st.maxCooldownPeriod)
    ∧ ((antiBlockDemo.onBlockingDetected 0).cooldownPeriod = 5000
       ∧ ((antiBlockDemo.onBlockingDetected 0).onBlockingDetected 1).cooldownPeriod = 10000
       ∧ (((antiBlockDemo.onBlockingDetected 0).onBlockingDetected 1).onBlockingDetected
            2).cooldownPeriod = 40000) := by
  refine ⟨⟨rfl, ?_⟩, by decide⟩
  simp [LinkedInAntiBlock.onBlockingDetected]

/-! ## C9 — cooldown expiry keeps the escalation -/

/-- C9: once the cooldown window has elapsed (`cooldownPeriod ≤ now -
lastBlockingTime`), `isInCooldown` returns `false` and clears only the
`blockingDetected` flag — `blockingCount` and the escalated
`cooldownPeriod` survive — so the next detected block multiplies the
already escalated cooldown by `2 ^ blockingCount`; only `reset()`
restores the counter to 0 and the cooldown to its initial 5 minutes. -/
theorem c9_cooldown_expiry_preserves_escalation (st : LinkedInAntiBlock)
    (now t now2 : Nat) (hb : st.blockingDetected = true)
    (hl : st.lastBlockingTime = some t) (ht : t ≠ 0)
    (helapsed : st.cooldownPeriod ≤ now - t) :
    (st.isInCooldown now).1 = false
    ∧ ((st.isInCooldown now).2.blockingDetected = false
       ∧ (st.isInCooldown now).2.blockingCount = st.blockingCount
       ∧ (st.isInCooldown now).2.cooldownPeriod = st.cooldownPeriod)
    ∧ (((st.isInCooldown now).2.onBlockingDetected now2).cooldownPeriod
         = min (st.cooldownPeriod * 2 ^ st.blockingCount) st.maxCooldownPeriod)
    ∧ (st.reset.blockingCount = 0 ∧ st.reset.cooldownPeriod = 5 * 60 * 1000
       ∧ st.reset.blockingDetected = false ∧ st.reset.lastBlockingTime = none) := by
  have hnlt : ¬ (now - t < st.cooldownPeriod) := Nat.not_lt.mpr helapsed
  simp [LinkedInAntiBlock.isInCooldown, LinkedInAntiBlock.jsTruthyOptNat, hb, hl, ht,
    hnlt, LinkedInAntiBlock.onBlockingDetected, LinkedInAntiBlock.reset]

/-- C9, witness: a state one block deep (cooldown 300000 ms, blocked at
t = 100) queried at `now = 300100`. -/
theorem c9_cooldown_expiry_witness :
    ((LinkedInAntiBlock.init.onBlockingDetected 100).isInCooldown 300100).1 = false :=
  (c9_cooldown_expiry_preserves_escalation (LinkedInAntiBlock.init.onBlockingDetected 100)
    300100 100 777 (by decide) (by decide) (by decide) (by decide)).1

/-! ## C4 — block classifier signal classes -/

lemma detectBlocking_blocked_eq (st : LinkedInAntiBlock) (now : Nat)
    (c u : String) (sc : Nat) :
    ((st.detectBlocking now c u sc).1).blocked =
      (blockingSignals.any (fun signal => jsIncludes (jsToLower c) signal)
       || (jsIncludes u "/challenge/" || jsIncludes u "/login/" || jsIncludes u "/authwall/")
       || (sc == 429 || sc == 403 || sc == 401)) := by
  simp only [LinkedInAntiBlock.detectBlocking]
  split
  next h => exact h.symm
  next h =>
    simp only [Bool.not_eq_true] at h
    split
    next => exact h.symm
    next => exact h.symm

lemma specBlockedSignals_iff (c u : String) (sc : Nat) :
    (blockingSignals.any (fun signal => jsIncludes (jsToLower c) signal)
     || (jsIncludes u "/challenge/" || jsIncludes u "/login/" || jsIncludes u "/authwall/")
     || (sc == 429 || sc == 403 || sc == 401)) = true
    ↔ specBlockedSignals c u sc := by
  simp [specBlockedSignals, List.any_eq_true, Bool.or_eq_true, beq_iff_eq, or_assoc]

/-- C4: `detectBlocking` reports `blocked` exactly when at least one of
the three signal classes fires — a configured phrase in the lowercased
content, a challenge/login/auth-wall path in the final URL, or status
429/403/401; when none fires, unusually small content (< 1000 chars)
alone yields only a `suspicious` verdict, never `blocked`. -/
theorem c4_block_classifier (st : LinkedInAntiBlock) (now : Nat)
    (c u : String) (sc : Nat) :
    ((st.detectBlocking now c u sc).1.blocked = true ↔ specBlockedSignals c u sc)
    ∧ (¬ specBlockedSignals c u sc → (jsToLower c).length < 1000 →
        (st.detectBlocking now c u sc).1.blocked = false
        ∧ (st.detectBlocking now c u sc).1.suspicious = true) := by
  constructor
  · rw [detectBlocking_blocked_eq]
    exact specBlockedSignals_iff c u sc
  · intro hno hmin
    have hcondF : (blockingSignals.any (fun signal => jsIncludes (jsToLower c) signal)
        || (jsIncludes u "/challenge/" || jsIncludes u "/login/" || jsIncludes u "/authwall/")
        || (sc == 429 || sc == 403 || sc == 401)) = false := by
      rw [← Bool.not_eq_true]
      intro hT
      exact hno ((specBlockedSignals_iff c u sc).mp hT)
    simp only [LinkedInAntiBlock.detectBlocking, hcondF, Bool.false_eq_true, if_false,
      if_pos hmin]
    exact ⟨trivial, trivial⟩

/-- C4, witness: a tiny clean page (`"ok"`, 2 chars, status 200, a
normal company URL) is classified `suspicious` but not `blocked`. -/
theorem c4_block_classifier_witness :
    (LinkedInAntiBlock.init.detectBlocking 0 "ok"
       "https://www.linkedin.com/company/x/" 200).1.blocked = false
    ∧ (LinkedInAntiBlock.init.detectBlocking 0 "ok"
         "https://www.linkedin.com/company/x/" 200).1.suspicious = true :=
  (c4_block_classifier LinkedInAntiBlock.init 0 "ok"
    "https://www.linkedin.com/company/x/" 200).2 (by decide) (by decide)

/-! ## C6 — cache TTL -/

/-- C6: after a write of `(k, v)` at time `t` into a cache within its
capacity bound, a read of `k` returns `v` while less than
`CACHE_DURATION` has elapsed and returns absent once the duration has
elapsed; an expired entry is never served. -/
theorem c6_cache_ttl (m : CacheMap) (k : String) (r : ExtractResult) (t now : Nat)
    (hm : m.length ≤ MAX_CACHE_ENTRIES) :
    (now - t < CACHE_DURATION →
       cacheRead (cacheWrite m k { data := r, timestamp := t }) k now = some r)
    ∧ (CACHE_DURATION ≤ now - t →
       cacheRead (cacheWrite m k { data := r, timestamp := t }) k now = none) := by
  have hget := cacheWrite_get m k { data := r, timestamp := t } hm
  constructor
  · intro hfresh
    simp [cacheRead, hget, hfresh]
  · intro hexp
    simp [cacheRead, hget, Nat.not_lt.mpr hexp]

/-- C6, witness: both sides on the empty cache — a hit 1 second after
the write and a miss exactly 10 minutes after it. -/
theorem c6_cache_ttl_witness :
    cacheRead (cacheWrite [] "extract:https://example.com"
        { data := demoResult, timestamp := 1000 }) "extract:https://example.com" 2000
      = some demoResult
    ∧ cacheRead (cacheWrite [] "extract:https://example.com"
        { data := demoResult, timestamp := 1000 }) "extract:https://example.com" 601000
      = none :=
  ⟨(c6_cache_ttl [] "extract:https://example.com" demoResult 1000 2000 (by decide)).1
     (by decide),
   (c6_cache_ttl [] "extract:https://example.com" demoResult 1000 601000 (by decide)).2
     (by decide)⟩

/-! ## C7 — cache capacity bound and eviction of the oldest entry -/

/-- C7: a completed insertion never leaves more than
`MAX_CACHE_ENTRIES = 100` entries, and inserting a fresh key while the
cache is exactly at capacity removes exactly one entry — the oldest
(head) one — leaving the cache at capacity again. -/
theorem c7_cache_capacity (m : CacheMap) (k : String) (v : CacheEntry)
    (hm : m.length ≤ MAX_CACHE_ENTRIES) :
    (cacheWrite m k v).length ≤ MAX_CACHE_ENTRIES
    ∧ (m.length = MAX_CACHE_ENTRIES → mapHasKey m k = false →
        cacheWrite m k v = m.tail ++ [(k, v)]
        ∧ (cacheWrite m k v).length = MAX_CACHE_ENTRIES) := by
  refine ⟨cacheWrite_length_le m k v hm, fun hfull hfresh => ?_⟩
  have heq := cacheWrite_at_capacity m k v hfull hfresh
  refine ⟨heq, ?_⟩
  rw [heq]
  cases m with
  | nil => simp [MAX_CACHE_ENTRIES] at hfull
  | cons p tl =>
      simp only [List.length_cons] at hfull
      simp only [List.tail_cons, List.length_append, List.length_cons, List.length_nil]
      omega

/-- A concrete cache at capacity: keys `"0"` … `"99"`. -/
def bigCache : CacheMap :=
  (List.range MAX_CACHE_ENTRIES).map
    (fun i => (toString i, { data := demoResult, timestamp := 0 : CacheEntry }))

/-- C7, witness: inserting the fresh key `"newkey"` into the
100-entry `bigCache` drops exactly its oldest entry (key `"0"`) and
appends the new one. -/
theorem c7_cache_capacity_witness :
    cacheWrite bigCache "newkey" { data := demoResult, timestamp := 5 }
      = bigCache.tail ++ [("newkey", { data := demoResult, timestamp := 5 })]
    ∧ (cacheWrite bigCache "newkey" { data := demoResult, timestamp := 5 }).length
      = MAX_CACHE_ENTRIES :=
  (c7_cache_capacity bigCache "newkey" { data := demoResult, timestamp := 5 }
    (by decide)).2 (by decide) (by decide)

/-! ## C8 — a failed LinkedIn branch is cached as `linkedin: null` -/

/-- C8: when the site extraction succeeds but the LinkedIn branch fails
(timeout included), `extractCompanyDetails` still returns `success:
true` with `linkedin: null`, writes that result to the cache, and any
later call for the same URL within `CACHE_DURATION` is served from the
cache with the null LinkedIn field, entering the LinkedIn pipeline zero
times. -/
theorem c8_linkedin_failure_cached (m : CacheMap) (now now2 : Nat)
    (n siteData l : String) (e : ErrObj)
    (site2 : Except SiteErr String) (li2 : Except ErrObj String)
    (hm : m.length ≤ MAX_CACHE_ENTRIES)
    (hmiss : cacheRead m ("extract:" ++ n) now = none)
    (hfresh : now2 - now < CACHE_DURATION) :
    extractCompanyDetails m now (some n) true (.ok siteData) (some l) (.error e)
      = (.ok { success := true, site := siteData, linkedin := none } false,
         cacheWrite m ("extract:" ++ n)
           { data := { success := true, site := siteData, linkedin := none },
             timestamp := now },
         1)
    ∧ extractCompanyDetails
        (cacheWrite m ("extract:" ++ n)
          { data := { success := true, site := siteData, linkedin := none },
            timestamp := now })
        now2 (some n) true site2 (some l) li2
      = (.ok { success := true, site := siteData, linkedin := none } true,
         cacheWrite m ("extract:" ++ n)
           { data := { success := true, site := siteData, linkedin := none },
             timestamp := now },
         0) := by
  constructor
  · simp [extractCompanyDetails, hmiss]
  · have hget := cacheWrite_get m ("extract:" ++ n)
      { data := { success := true, site := siteData, linkedin := none }, timestamp := now } hm
    have hhit : cacheRead
        (cacheWrite m ("extract:" ++ n)
          { data := { success := true, site := siteData, linkedin := none },
            timestamp := now })
        ("extract:" ++ n) now2
        = some { success := true, site := siteData, linkedin := none } := by
      simp [cacheRead, hget, hfresh]
    simp [extractCompanyDetails, hhit]

/-- C8, witness: empty cache, site payload `"S"`, LinkedIn branch timing
out; the second call one second later is served from the cache with the
null LinkedIn data and zero LinkedIn attempts. -/
theorem c8_linkedin_failure_cached_witness :
    extractCompanyDetails
        (cacheWrite [] "extract:https://example.com"
          { data := { success := true, site := "S", linkedin := none }, timestamp := 1000 })
        2000 (some "https://example.com") true (.ok "other")
        (some "https://www.linkedin.com/company/x") (.ok "fresh linkedin data")
      = (.ok { success := true, site := "S", linkedin := none } true,
         cacheWrite [] "extract:https://example.com"
           { data := { success := true, site := "S", linkedin := none }, timestamp := 1000 },
         0) :=
  (c8_linkedin_failure_cached [] 1000 2000 "https://example.com" "S"
    "https://www.linkedin.com/company/x"
    (createError "TimeoutError" "LinkedIn extraction timeout")
    (.ok "other") (.ok "fresh linkedin data")
    (by decide) (by decide) (by decide)).2

/-! ## C2 — proxy quarantine mechanics -/

lemma rotateProxy_fields (st : LinkedInProxyManager) (now : Nat) :
    (st.rotateProxy now).proxies = st.proxies
    ∧ (st.rotateProxy now).failedProxies = st.failedProxies := by
  simp only [LinkedInProxyManager.rotateProxy]
  split <;> simp

/-- When every proxy id is in the failed set, `getNextProxy` returns
`null` — whatever `now` is: the selection consults only set
membership. -/
lemma getNextProxy_all_failed (st : LinkedInProxyManager) (now : Nat)
    (hall : ∀ p ∈ st.proxies, st.failedProxies.contains p.id = true) :
    (st.getNextProxy now).1 = none := by
  by_cases h0 : st.proxies.length = 0
  · simp [LinkedInProxyManager.getNextProxy, h0]
  · by_cases hc : now - st.lastProxyRotation > st.rotationInterval
    · simp only [LinkedInProxyManager.getNextProxy, if_neg h0, if_pos hc]
      have hall1 : ∀ p ∈ (st.rotateProxy now).proxies,
          (st.rotateProxy now).failedProxies.contains p.id = true := by
        rw [(rotateProxy_fields st now).1, (rotateProxy_fields st now).2]
        exact hall
      have hscan := scanProxies_all_failed (st.rotateProxy now).proxies
        (st.rotateProxy now).failedProxies hall1
        (st.rotateProxy now).proxies.length (st.rotateProxy now).currentProxyIndex
      rcases hres : LinkedInProxyManager.scanProxies (st.rotateProxy now).proxies
          (st.rotateProxy now).failedProxies (st.rotateProxy now).proxies.length
          (st.rotateProxy now).currentProxyIndex with ⟨o, i⟩
      rw [hres] at hscan
      simp only at hscan
      subst hscan
      simp [hres]
    · simp only [LinkedInProxyManager.getNextProxy, if_neg h0, if_neg hc]
      have hscan := scanProxies_all_failed st.proxies st.failedProxies hall
        st.proxies.length st.currentProxyIndex
      rcases hres : LinkedInProxyManager.scanProxies st.proxies st.failedProxies
          st.proxies.length st.currentProxyIndex with ⟨o, i⟩
      rw [hres] at hscan
      simp only at hscan
      subst hscan
      simp [hres]

/-- When the scan returns a found index, the proxy at that index is not
in the failed set: the loop only ever stops on a non-failed proxy. -/
lemma scanProxies_some_not_failed (proxies : List Proxy) (failed : List String) :
    ∀ fuel idx i snd,
      LinkedInProxyManager.scanProxies proxies failed fuel idx = (some i, snd) →
      ∃ p, proxies.get? i = some p ∧ failed.contains p.id = false := by
  intro fuel
  induction fuel with
  | zero =>
      intro idx i snd h
      simp [LinkedInProxyManager.scanProxies] at h
  | succ n ih =>
      intro idx i snd h
      simp only [LinkedInProxyManager.scanProxies] at h
      split at h
      · simp at h
      · rename_i p hget
        split at h
        · exact ih _ i snd h
        · rename_i hf
          simp only [Prod.mk.injEq, Option.some.injEq] at h
          refine ⟨p, ?_, ?_⟩
          · rw [← h.1]; exact hget
          · simpa [Bool.not_eq_true] using hf

/-- Whatever the pool — healthy proxies included — `getNextProxy` never
returns a proxy whose id is currently in the failed set. -/
lemma getNextProxy_skips_failed (st : LinkedInProxyManager) (now : Nat) (p : Proxy)
    (h : (st.getNextProxy now).1 = some p) :
    st.failedProxies.contains p.id = false := by
  have hfp : (if now - st.lastProxyRotation > st.rotationInterval
      then st.rotateProxy now else st).failedProxies = st.failedProxies := by
    split
    · exact (rotateProxy_fields st now).2
    · rfl
  simp only [LinkedInProxyManager.getNextProxy] at h
  split at h
  · simp at h
  · split at h
    · rename_i i snd hscan
      split at h
      · rename_i q hget
        simp only [Option.some.injEq] at h
        obtain ⟨q', hget', hq'⟩ := scanProxies_some_not_failed _ _ _ _ _ _ hscan
        rw [hget] at hget'
        simp only [Option.some.injEq] at hget'
        rw [← h]
        rw [hfp] at hq'
        rw [← hget'] at hq'
        exact hq'
      · simp at h
    · simp at h

/-- The single proxy of the rotation demo. -/
def demoProxy1 : Proxy :=
  { id := "p1", host := "proxy1.example.com", port := 8080,
    successCount := 0, failureCount := 0, avgResponseTime := 0, lastUsed := none }

/-- A manager holding only `demoProxy1`, rotation interval 10 minutes,
nothing failed yet. -/
def demoPMState : LinkedInProxyManager :=
  { proxies := [demoProxy1], currentProxyIndex := 0, failedProxies := [],
    lastProxyRotation := 0, rotationInterval := 10 * 60 * 1000, pendingRecoveries := [] }

/-- A second, healthy proxy for the mixed-pool demo. -/
def demoProxy2 : Proxy :=
  { id := "p2", host := "proxy2.example.com", port := 8080,
    successCount := 0, failureCount := 0, avgResponseTime := 0, lastUsed := none }

/-- A manager holding `demoProxy1` and `demoProxy2`, rotation interval
10 minutes, nothing failed yet. -/
def demoPM2 : LinkedInProxyManager :=
  { proxies := [demoProxy1, demoProxy2], currentProxyIndex := 0, failedProxies := [],
    lastProxyRotation := 0, rotationInterval := 10 * 60 * 1000, pendingRecoveries := [] }

/-- C2, counterexample: after `markProxyFailed("p1")` at time 0, a
`getNextProxy` call at time `quarantineWindow + 1` — later than the
claimed lifting instant — still returns `null`: no time comparison at
selection time lifts the quarantine; only the 30-minute `setTimeout`
callback (a background timer, delivered separately) removes the id from
the failed set. -/
theorem c2_selection_time_lifting_counterexample :
    ((demoPMState.markProxyFailed "p1" 0).getNextProxy (PROXY_QUARANTINE_WINDOW + 1)).1 = none
    ∧ PROXY_QUARANTINE_WINDOW + 1 > 0 + PROXY_QUARANTINE_WINDOW := by decide

/-- C2, amended: `getNextProxy` consults only failed-set membership —
(1) it never returns a proxy whose id is currently in the failed set
(every call made while a proxy is quarantined skips it, also in pools
that still hold healthy proxies); (2) while EVERY proxy is in the
failed set it returns `null` rather than a quarantined proxy, whatever
the current time (in particular before the 30-minute recovery callback
of `markProxyFailed` fires); (3) once the event loop delivers the due
recovery callback, the proxy is selectable again without any explicit
reset call. -/
theorem c2_quarantine_amended (st : LinkedInProxyManager) (now : Nat) :
    (∀ p, (st.getNextProxy now).1 = some p → st.failedProxies.contains p.id = false)
    ∧ ((∀ p ∈ st.proxies, st.failedProxies.contains p.id = true) →
        (st.getNextProxy now).1 = none)
    ∧ (((demoPMState.markProxyFailed "p1" 0).deliverRecoveries
          PROXY_QUARANTINE_WINDOW).getNextProxy (PROXY_QUARANTINE_WINDOW + 1)).1
        = some { demoProxy1 with
                   failureCount := 1
                   lastUsed := some (PROXY_QUARANTINE_WINDOW + 1) } :=
  ⟨fun p hp => getNextProxy_skips_failed st now p hp,
   fun hall => getNextProxy_all_failed st now hall,
   by decide⟩

/-- C2, witness: a mixed pool — `p1` failed, `p2` healthy — where
`getNextProxy` selects `p2`, whose id the theorem certifies to be
outside the failed set; and the fully quarantined single-proxy manager
queried inside the window (1 second after the failure), which yields
`null`. -/
theorem c2_quarantine_amended_witness :
    ((demoPM2.markProxyFailed "p1" 0).getNextProxy 1000).1
      = some { demoProxy2 with lastUsed := some 1000 }
    ∧ (demoPM2.markProxyFailed "p1" 0).failedProxies.contains
        ({ demoProxy2 with lastUsed := some 1000 } : Proxy).id = false
    ∧ ((demoPMState.markProxyFailed "p1" 0).getNextProxy 1000).1 = none :=
  ⟨by decide,
   (c2_quarantine_amended (demoPM2.markProxyFailed "p1" 0) 1000).1
     { demoProxy2 with lastUsed := some 1000 } (by decide),
   (c2_quarantine_amended (demoPMState.markProxyFailed "p1" 0) 1000).2.1 (by decide)⟩

/-! ## C3 — every error kind is retried -/

/-- C3, counterexample: operations that always fail with the
non-retryable kinds named by the claim — a validation error and a
detected block — are nevertheless invoked 3 times by
`retryLinkedInExtraction(·, 3)`, not returned after the first attempt:
the `catch` never inspects the error kind. -/
theorem c3_nonretryable_counterexample :
    (retryLinkedInExtraction
        (fun _ => Except.error (createError "ValidationError" "malformed target identity"))
        3).2 = 3
    ∧ (retryLinkedInExtraction
        (fun _ => Except.error (createError "LinkedInBotDetection" "blocked"))
        3).2 = 3
    ∧ (3 : Nat) ≠ 1 := by decide

/-- C3, amended: the retry wrapper applies the same policy to every
error kind — an operation that always fails with ANY kind (validation
errors and detected blocks included) is invoked once per configured
attempt and its failure is surfaced only after all attempts are
consumed. -/
theorem c3_every_kind_retried (etype emsg : String) (retries : Nat) (h : retries ≠ 0) :
    retryLinkedInExtraction (fun _ => Except.error (createError etype emsg)) retries
      = (Except.error (createError etype emsg), retries) := by
  simpa [retryLinkedInExtraction] using
    retryLoop_always_fails (fun _ => createError etype emsg) retries 0 none h

/-- C3, witness: a perpetual `ValidationError` run with 3 attempts. -/
theorem c3_every_kind_retried_witness :
    retryLinkedInExtraction (fun _ => Except.error (createError "ValidationError" "Invalid URL")) 3
      = (Except.error (createError "ValidationError" "Invalid URL"), 3) :=
  c3_every_kind_retried "ValidationError" "Invalid URL" 3 (by decide)

/-! ## C5 — three attempts, last failure surfaced unannotated -/

/-- A fixed retryable failure, for the attempt-count comparison. -/
def constNetErrOp : Nat → Except ErrObj LinkedInData :=
  fun _ => Except.error (createError "NetworkError" "connect ECONNREFUSED")

/-- C5, counterexample: runs with `retries = 3` and `retries = 2`
surface IDENTICAL failures (the raw error object, unmodified), although
the attempt counts differ — so the surfaced failure cannot carry how
many attempts were made; no annotation is attached. -/
theorem c5_attempt_annotation_counterexample :
    (retryLinkedInExtraction constNetErrOp 3).1 = (retryLinkedInExtraction constNetErrOp 2).1
    ∧ (retryLinkedInExtraction constNetErrOp 3).2 = 3
    ∧ (retryLinkedInExtraction constNetErrOp 2).2 = 2
    ∧ (2 : Nat) ≠ 3 := by decide

/-- C5, amended: with `maxAttempts = 3`, an always-failing operation is
invoked exactly 3 times and the failure surfaced to the caller is the
final (third) attempt's error object, unchanged — no attempt count is
attached to it. -/
theorem c5_three_attempts_last_failure (e : Nat → ErrObj) :
    retryLinkedInExtraction (fun k => Except.error (e k)) 3 = (Except.error (e 2), 3) := by
  simpa [retryLinkedInExtraction] using
    retryLoop_always_fails e 3 0 none (by decide)

/-! ## C10 — bounded FIFO execution pool -/

/-- Five equal-duration tasks submitted to a capacity-2 pool. -/
def poolDemoStart : ExecutionPool :=
  ([{ tid := 0, duration := 2 }, { tid := 1, duration := 2 }, { tid := 2, duration := 2 },
    { tid := 3, duration := 2 }, { tid := 4, duration := 2 }] : List PoolTask).foldl
    poolSubmit
    { capacity := POOL_SIZE_DEFAULT, waiting := [], running := [], finished := [] }

/-- C10 (pool modelled from the spec; the queueing discipline lives in
the external `puppeteer-cluster` package, the repo only configures
`maxConcurrency`): a tick never pushes the number of active contexts
past the capacity, and the capacity-2 pool given 5 equal-duration tasks
runs at most 2 at every instant, completes all 5, and completes them in
FIFO submission order. -/
theorem c10_pool_bounded_fifo (st : ExecutionPool)
    (h : st.running.length ≤ st.capacity) :
    ((poolTick st).running.length ≤ st.capacity ∧ (poolTick st).capacity = st.capacity)
    ∧ (∀ k, k ≤ 6 → (poolTick^[k] poolDemoStart).running.length ≤ POOL_SIZE_DEFAULT)
    ∧ (poolTick^[6] poolDemoStart).finished = [0, 1, 2, 3, 4]
    ∧ (poolTick^[6] poolDemoStart).waiting = []
    ∧ (poolTick^[6] poolDemoStart).running = [] :=
  ⟨poolTick_length_le st h, by decide, by decide, by decide, by decide⟩

/-- C10, witness: the freshly loaded demo pool (2 running, 3 queued)
ticked once. -/
theorem c10_pool_bounded_fifo_witness :
    (poolTick poolDemoStart).running.length ≤ poolDemoStart.capacity
    ∧ (poolTick poolDemoStart).capacity = poolDemoStart.capacity :=
  (c10_pool_bounded_fifo poolDemoStart (by decide)).1
